import Mathlib

/-!
Shallow embedding of the driver supervisor of the agi-node repository
(src/driver/driver.ts and src/driver/protocol.ts), together with proofs of
the testable properties stated about it.

Modelling conventions:
* The JavaScript object layer of the wire protocol is modelled by a `Json`
  value tree; the text layer (`JSON.stringify` / `JSON.parse`) is abstracted
  as the classification it induces on input lines (`WireLine`): a line is
  either not valid JSON (`malformed`) or denotes a document (`doc`).
* The mutable fields of the `AgentDriver` class become a record, and each
  method becomes a function from records to records (or to `Except` when the
  method can throw).  Node's `EventEmitter.emit` calls are recorded in an
  `emits` log, writes to the child process's stdin in a `writes` log, and the
  promise returned by `start()` is tracked by a `PromiseState` field together
  with the two booleans recording whether `resolveStart` / `rejectStart` are
  still non-null.
* Listener callbacks registered for `confirm` / `ask_question` are opaque to
  the driver except for their awaited return value; an invocation is
  therefore modelled by its outcome (`threw`, a non-boolean / non-string
  value, or a boolean / string).
-/

/-- Driver states, from `protocol.ts` (`DriverState`). -/
inductive DriverState
  | idle
  | running
  | paused
  | waiting_confirmation
  | waiting_answer
  | finished
  | stopped
  | error
deriving DecidableEq, Repr

/-- An action payload, from `protocol.ts` (`DriverAction`): a type tag plus
optional coordinates (the open index signature carries no protocol meaning
and is not modelled). -/
structure DriverAction where
  type : String
  x : Option Int := none
  y : Option Int := none
deriving DecidableEq, Repr

/-- Events sent by the driver process, from `protocol.ts` (`DriverEvent`):
one constructor per interface, with exactly its declared fields. -/
inductive DriverEvent
  | ready (step : Nat) (version : String) (protocol : String)
  | state_change (step : Nat) (state : DriverState)
  | thinking (step : Nat) (text : String)
  | action (step : Nat) (action : DriverAction)
  | confirm (step : Nat) (action : DriverAction) (reason : String)
  | ask_question (step : Nat) (question : String) (question_id : String)
  | finished (step : Nat) (reason : String) (summary : String) (success : Bool)
  | error (step : Nat) (message : String) (code : String) (recoverable : Bool)
  | screenshot_captured (step : Nat) (width : Nat) (height : Nat)
  | session_created (step : Nat) (session_id : String) (agent_url : String)
      (environment_url : Option String) (vnc_url : Option String)
deriving DecidableEq, Repr

/-- The `step` field common to every event (`BaseEvent.step`). -/
def DriverEvent.step : DriverEvent → Nat
  | .ready s _ _ => s
  | .state_change s _ => s
  | .thinking s _ => s
  | .action s _ => s
  | .confirm s _ _ => s
  | .ask_question s _ _ => s
  | .finished s _ _ _ => s
  | .error s _ _ _ => s
  | .screenshot_captured s _ _ => s
  | .session_created s _ _ _ _ => s

/-- Platform selector, from `protocol.ts` (`'desktop' | 'android'`). -/
inductive Platform
  | desktop
  | android
deriving DecidableEq, Repr

/-- Commands written to the driver process, from `protocol.ts`
(`DriverCommand`): one constructor per interface.  Optional TypeScript
fields become `Option`; an `undefined` value and an absent field are
identified, matching both the TypeScript type and `JSON.stringify`, which
drops `undefined`-valued keys. -/
inductive DriverCommand
  | start (session_id : String) (goal : String) (screenshot : String)
      (screen_width : Int) (screen_height : Int) (platform : Platform)
      (model : String) (mode : Option String) (agent_name : Option String)
      (api_url : Option String) (environment_type : Option String)
  | screenshot (data : String) (screen_width : Int) (screen_height : Int)
  | pause
  | resume
  | stop (reason : Option String)
  | confirm (approved : Bool) (message : Option String)
  | answer (text : String) (question_id : Option String)
deriving DecidableEq, Repr

/-- Result delivered by a resolved `start()` promise (`DriverResult`). -/
structure DriverResult where
  success : Bool
  reason : String
  summary : String
  step : Nat
deriving DecidableEq, Repr

/-- Status of the promise returned by `start()`. -/
inductive PromiseState
  | pending
  | resolved (r : DriverResult)
  | rejected (msg : String)
deriving DecidableEq, Repr

/-- A record of one `this.emit(...)` call made by the driver, one
constructor per emitted event name in `driver.ts`. -/
inductive Emit
  | rawEvent (e : DriverEvent)
  | ready (e : DriverEvent)
  | stateChange (s : DriverState) (e : DriverEvent)
  | thinking (text : String) (e : DriverEvent)
  | action (a : DriverAction) (e : DriverEvent)
  | screenshotCaptured (e : DriverEvent)
  | finished (e : DriverEvent)
  | error (e : DriverEvent)
  | stderrData (s : String)
deriving DecidableEq, Repr

/-- Awaited outcome of one registered `confirm` listener: the listener may
reject, resolve to a non-boolean, or resolve to a boolean (only
`typeof approved === 'boolean'` triggers the auto-response). -/
inductive LRes
  | threw
  | nonBool
  | bool (b : Bool)
deriving DecidableEq, Repr

/-- Awaited outcome of one registered `ask_question` listener. -/
inductive QRes
  | threw
  | nonStr
  | str (s : String)
deriving DecidableEq, Repr

/-- The mutable state of one `AgentDriver` instance, plus the observation
logs described in the module docstring.  `process` / `readline` /
`resolveStart` / `rejectStart` / `pendingConfirm` / `pendingAnswer` record
whether the corresponding nullable field is non-null.  `readyArmed` records
whether the `once('ready')` listener installed by `start()` is still armed,
and `goal` .. `startMode` the values its closure captured. -/
structure AgentDriver where
  process : Bool := false
  readline : Bool := false
  state : DriverState := .idle
  step : Nat := 0
  sessionId : String := ""
  resolveStart : Bool := false
  rejectStart : Bool := false
  pendingConfirm : Bool := false
  pendingAnswer : Bool := false
  readyArmed : Bool := false
  goal : String := ""
  screenshotArg : String := ""
  screenWidth : Int := 0
  screenHeight : Int := 0
  platform : Platform := .desktop
  model : String := "claude-sonnet"
  startMode : String := ""
  promise : PromiseState := .pending
  writes : List DriverCommand := []
  emits : List Emit := []
deriving DecidableEq, Repr

/-- A freshly constructed driver (constructor defaults: state `idle`, step
`0`, all nullable fields null, default model and platform). -/
def freshDriver : AgentDriver := {}

/-- `sendCommand`: serialize and write to the child's stdin; silently does
nothing when the process (hence its stdin) is gone
(`if (!this.process?.stdin) return`). -/
def sendCommand (d : AgentDriver) (c : DriverCommand) : AgentDriver :=
  if d.process then { d with writes := d.writes ++ [c] } else d

/-- `cleanup()`: close the readline, null the promise callbacks, kill and
release the process, drop pending continuations. -/
def cleanup (d : AgentDriver) : AgentDriver :=
  { d with
    readline := false
    resolveStart := false
    rejectStart := false
    process := false
    pendingConfirm := false
    pendingAnswer := false }

/-- `respondConfirm(approved, message)`: throws unless a process is alive
and the state is `waiting_confirmation`; otherwise writes the `confirm`
response command and fires and clears the pending continuation. -/
def respondConfirm (d : AgentDriver) (approved : Bool) (message : Option String) :
    Except String AgentDriver :=
  if d.process = false ∨ d.state ≠ DriverState.waiting_confirmation then
    .error ("Not waiting for confirmation")
  else
    .ok { sendCommand d (.confirm approved message) with pendingConfirm := false }

/-- `respondAnswer(text, questionId)`: throws unless a process is alive and
the state is `waiting_answer`; otherwise writes the `answer` command and
fires and clears the pending continuation. -/
def respondAnswer (d : AgentDriver) (text : String) (questionId : Option String) :
    Except String AgentDriver :=
  if d.process = false ∨ d.state ≠ DriverState.waiting_answer then
    .error ("Not waiting for answer")
  else
    .ok { sendCommand d (.answer text questionId) with pendingAnswer := false }

/-- The loop body of the `confirm` case of `handleLine`: walk the listeners
in registration order; on the first boolean resolution with the event not
yet handled, call `respondConfirm` (whose possible throw is swallowed by the
surrounding `try`, leaving the handled flag unset). -/
def runConfirmListeners (d : AgentDriver) (ls : List LRes) (handled : Bool) :
    AgentDriver :=
  match ls with
  | [] => d
  | .threw :: rest => runConfirmListeners d rest handled
  | .nonBool :: rest => runConfirmListeners d rest handled
  | .bool b :: rest =>
    if handled then runConfirmListeners d rest handled
    else
      match respondConfirm d b none with
      | .ok d1 => runConfirmListeners d1 rest true
      | .error _ => runConfirmListeners d rest handled

/-- The loop body of the `ask_question` case of `handleLine`, symmetric to
`runConfirmListeners`. -/
def runQuestionListeners (d : AgentDriver) (qs : List QRes) (qid : String)
    (handled : Bool) : AgentDriver :=
  match qs with
  | [] => d
  | .threw :: rest => runQuestionListeners d rest qid handled
  | .nonStr :: rest => runQuestionListeners d rest qid handled
  | .str s :: rest =>
    if handled then runQuestionListeners d rest qid handled
    else
      match respondAnswer d s (some qid) with
      | .ok d1 => runQuestionListeners d1 rest qid true
      | .error _ => runQuestionListeners d rest qid handled

/-- `handleFinished(event)`: set state `finished`, emit, resolve the pending
start promise (if its callback is still non-null) with the event's fields,
then clean up. -/
def handleFinished (d : AgentDriver) (st : Nat) (reason summary : String)
    (success : Bool) : AgentDriver :=
  let e := DriverEvent.finished st reason summary success
  let d1 := { d with state := .finished, emits := d.emits ++ [Emit.finished e] }
  let d2 :=
    if d1.resolveStart then
      { d1 with
        promise := .resolved ⟨success, reason, summary, st⟩
        resolveStart := false
        rejectStart := false }
    else d1
  cleanup d2

/-- `handleError(event)`: emit to listeners; when the event is not
recoverable, enter the terminal `error` state, reject the pending start
promise (if its callback is still non-null) with `code: message`, and clean
up. -/
def handleError (d : AgentDriver) (st : Nat) (message code : String)
    (recoverable : Bool) : AgentDriver :=
  let e := DriverEvent.error st message code recoverable
  let d1 := { d with emits := d.emits ++ [Emit.error e] }
  if recoverable then d1
  else
    let d2 := { d1 with state := .error }
    let d3 :=
      if d2.rejectStart then
        { d2 with
          promise := .rejected (code ++ ": " ++ message)
          rejectStart := false
          resolveStart := false }
      else d2
    cleanup d3

/-- A line delivered by the readline interface, classified the way
`handleLine` classifies it: all-whitespace, not valid JSON, or a document
that the `parseEvent` cast presents as a typed `DriverEvent`. -/
inductive Line
  | blank
  | malformed (raw : String)
  | event (e : DriverEvent)
deriving DecidableEq, Repr

/-- `handleLine(line)`: skip blank lines; on a parse failure log to the
console and return; otherwise record the step, emit the raw event, and
dispatch on the event kind.  `cls` / `qls` are the awaited outcomes of the
registered `confirm` / `ask_question` listeners for this line. -/
def handleLine (cls : List LRes) (qls : List QRes) (d : AgentDriver)
    (l : Line) : AgentDriver :=
  match l with
  | .blank => d
  | .malformed _ => d
  | .event e =>
    let d0 := { d with step := e.step, emits := d.emits ++ [Emit.rawEvent e] }
    match e with
    | .ready _ _ _ =>
      let d1 := { d0 with emits := d0.emits ++ [Emit.ready e] }
      if d1.readyArmed then
        let cmd := DriverCommand.start d1.sessionId d1.goal d1.screenshotArg
          d1.screenWidth d1.screenHeight d1.platform d1.model
          (some d1.startMode) none none none
        { sendCommand d1 cmd with readyArmed := false }
      else d1
    | .state_change _ s =>
      { d0 with state := s, emits := d0.emits ++ [Emit.stateChange s e] }
    | .thinking _ t =>
      { d0 with emits := d0.emits ++ [Emit.thinking t e] }
    | .action _ a =>
      { d0 with emits := d0.emits ++ [Emit.action a e] }
    | .confirm _ _ _ =>
      let d1 := { d0 with state := .waiting_confirmation }
      runConfirmListeners d1 cls false
    | .ask_question _ _ qid =>
      let d1 := { d0 with state := .waiting_answer }
      runQuestionListeners d1 qls qid false
    | .screenshot_captured _ _ _ =>
      { d0 with emits := d0.emits ++ [Emit.screenshotCaptured e] }
    | .session_created _ _ _ _ _ => d0
    | .finished st reason summary success =>
      handleFinished d0 st reason summary success
    | .error st message code recoverable =>
      handleError d0 st message code recoverable

/-- One processed line together with the listener outcomes observed while
handling it. -/
structure LineIn where
  cls : List LRes
  qls : List QRes
  line : Line
deriving DecidableEq, Repr

/-- The reader loop: lines are handled strictly in order, one at a time. -/
def run (d : AgentDriver) (ls : List LineIn) : AgentDriver :=
  ls.foldl (fun acc li => handleLine li.cls li.qls acc li.line) d

/-- `start(goal, screenshot, screenWidth, screenHeight, mode)`: throws
`Driver is already running` if a process is alive, otherwise generates a
session id (passed here as `sid`; it is nondeterministic in the source),
spawns the process, installs the promise callbacks, and arms the
`once('ready')` listener that will write the `start` command. -/
def startDriver (d : AgentDriver) (sid goal screenshot : String)
    (screenWidth screenHeight : Int) (mode : Option String) :
    Except String AgentDriver :=
  if d.process then .error ("Driver is already running")
  else
    .ok { d with
      sessionId := sid
      process := true
      readline := true
      resolveStart := true
      rejectStart := true
      promise := .pending
      readyArmed := true
      goal := goal
      screenshotArg := screenshot
      screenWidth := screenWidth
      screenHeight := screenHeight
      startMode := mode.getD d.startMode }

/-- The `process.on('exit', ...)` handler installed by `start()`: run
`cleanup()`, then reject the start promise with
`Driver exited with code <code>` if `rejectStart` is still non-null. -/
def onExit (d : AgentDriver) (code : Int) : AgentDriver :=
  let d1 := cleanup d
  if d1.rejectStart then
    { d1 with
      promise := .rejected ("Driver exited with code " ++ toString code)
      rejectStart := false
      resolveStart := false }
  else d1

/-- The `process.on('error', ...)` handler installed by `start()` (spawn
failure): run `cleanup()`, then reject with the spawn error if
`rejectStart` is still non-null. -/
def onSpawnError (d : AgentDriver) (msg : String) : AgentDriver :=
  let d1 := cleanup d
  if d1.rejectStart then
    { d1 with
      promise := .rejected msg
      rejectStart := false
      resolveStart := false }
  else d1

/-- `pause()`: no-op without a live process, otherwise write the command. -/
def pause (d : AgentDriver) : AgentDriver :=
  if d.process then sendCommand d .pause else d

/-- `resume()`: no-op without a live process, otherwise write the command. -/
def resume (d : AgentDriver) : AgentDriver :=
  if d.process then sendCommand d .resume else d

/-- `stop(reason)`: no-op without a live process; otherwise write the `stop`
command, wait for exit (force-killing after the grace period, not modelled
as it only affects real time), then clean up. -/
def stopDriver (d : AgentDriver) (reason : Option String) : AgentDriver :=
  if d.process then cleanup (sendCommand d (.stop reason)) else d

/-- `sendScreenshot(screenshot, screenWidth, screenHeight)`: throws
`Driver is not running` when no process is alive, otherwise writes the
`screenshot` command with absent dimensions defaulted to `0`. -/
def sendScreenshot (d : AgentDriver) (data : String)
    (screenWidth screenHeight : Option Int) : Except String AgentDriver :=
  if d.process = false then .error ("Driver is not running")
  else .ok (sendCommand d (.screenshot data (screenWidth.getD 0) (screenHeight.getD 0)))

/-- `currentState` accessor. -/
def currentState (d : AgentDriver) : DriverState := d.state

/-!
## Protocol codec

`parseEvent` in `protocol.ts` is `JSON.parse(line)` followed by a type cast,
and `serializeCommand` is `JSON.stringify(command)`.  The text layer is
abstracted by `Json` (the parsed document tree) and `WireLine` (the
classification `JSON.parse` induces on input text).
-/

/-- A JSON document, the value produced by `JSON.parse`.  Numbers are
restricted to integers, which covers every numeric field of the protocol. -/
inductive Json
  | null
  | bool (b : Bool)
  | num (n : Int)
  | str (s : String)
  | arr (elems : List Json)
  | obj (fields : List (String × Json))

/-- Field lookup on a JSON object (`data.<key>` on the parsed document). -/
def Json.getField (j : Json) (k : String) : Option Json :=
  match j with
  | .obj fs => fs.lookup k
  | _ => none

/-- Read a JSON value as a string. -/
def Json.asStr : Json → Option String
  | .str s => some s
  | _ => none

/-- Read a JSON value as an integer. -/
def Json.asInt : Json → Option Int
  | .num n => some n
  | _ => none

/-- Read a JSON value as a natural number. -/
def Json.asNat : Json → Option Nat
  | .num (.ofNat n) => some n
  | _ => none

/-- Read a JSON value as a boolean. -/
def Json.asBool : Json → Option Bool
  | .bool b => some b
  | _ => none

/-- A line of wire text, classified the way `JSON.parse` classifies it:
either not a valid JSON document, or a valid document `j`. -/
inductive WireLine
  | malformed (raw : String)
  | doc (j : Json)

/-- `parseEvent(line)` from `protocol.ts`: `JSON.parse(line)` followed by an
unchecked cast (`data as DriverEvent`).  It throws exactly when the text is
not valid JSON and otherwise returns the parsed document unchanged: no
discriminator dispatch and no per-variant field validation happen. -/
def parseEvent : WireLine → Except Unit Json
  | .malformed _ => .error ()
  | .doc j => .ok j

/-- Serialize the platform selector. -/
def Platform.toJson : Platform → Json
  | .desktop => .str ("desktop")
  | .android => .str ("android")

/-- Append an optional string field; `JSON.stringify` drops keys whose
value is `undefined`. -/
def optField (k : String) : Option String → List (String × Json)
  | none => []
  | some v => [(k, .str v)]

/-- `serializeCommand(command)` from `protocol.ts`:
`JSON.stringify(command)` viewed at the document level.  Keys appear in the
declaration order of the TypeScript interfaces; `undefined` optional fields
are dropped. -/
def serializeCommand : DriverCommand → Json
  | .start sid goal shot w h p model mode agent api env =>
    .obj ([("command", .str ("start")), ("session_id", .str sid),
      ("goal", .str goal), ("screenshot", .str shot),
      ("screen_width", .num w), ("screen_height", .num h),
      ("platform", p.toJson), ("model", .str model)] ++
      optField ("mode") mode ++ optField ("agent_name") agent ++
      optField ("api_url") api ++ optField ("environment_type") env)
  | .screenshot data w h =>
    .obj [("command", .str ("screenshot")), ("data", .str data),
      ("screen_width", .num w), ("screen_height", .num h)]
  | .pause => .obj [("command", .str ("pause"))]
  | .resume => .obj [("command", .str ("resume"))]
  | .stop reason =>
    .obj (("command", .str ("stop")) :: optField ("reason") reason)
  | .confirm approved message =>
    .obj ([("command", .str ("confirm")), ("approved", .bool approved)] ++
      optField ("message") message)
  | .answer text qid =>
    .obj (("command", .str ("answer")) :: ("text", .str text) ::
      optField ("question_id") qid)

/-- Read back an optional string field: an absent key yields `none`
(`undefined`), a present key must hold a string. -/
def readOptStr (j : Json) (k : String) : Option (Option String) :=
  match j.getField k with
  | none => some none
  | some v => v.asStr.map some

/-- Read back a platform selector. -/
def platformOfJson (j : Json) : Option Platform :=
  match j.asStr with
  | some s =>
    if s = "desktop" then some .desktop
    else if s = "android" then some .android
    else none
  | none => none

/-- The structural read-back of a serialized command: field-by-field access
on the parsed document, as a caller comparing the round-tripped value with
the original command does.  `commandOfJson (serializeCommand c) = some c`
is the precise sense in which decoding the encoded line yields a value
structurally equal to the original command. -/
def commandOfJson (j : Json) : Option DriverCommand :=
  match j.getField ("command") with
  | some (.str ("start")) =>
    match j.getField ("session_id"), j.getField ("goal"),
        j.getField ("screenshot"), j.getField ("screen_width"),
        j.getField ("screen_height"), j.getField ("platform"),
        j.getField ("model") with
    | some sid, some goal, some shot, some w, some h, some p, some m =>
      match sid.asStr, goal.asStr, shot.asStr, w.asInt, h.asInt,
          platformOfJson p, m.asStr, readOptStr j ("mode"),
          readOptStr j ("agent_name"), readOptStr j ("api_url"),
          readOptStr j ("environment_type") with
      | some sid, some goal, some shot, some w, some h, some p, some m,
          some mode, some agent, some api, some env =>
        some (.start sid goal shot w h p m mode agent api env)
      | _, _, _, _, _, _, _, _, _, _, _ => none
    | _, _, _, _, _, _, _ => none
  | some (.str ("screenshot")) =>
    match j.getField ("data"), j.getField ("screen_width"),
        j.getField ("screen_height") with
    | some data, some w, some h =>
      match data.asStr, w.asInt, h.asInt with
      | some data, some w, some h => some (.screenshot data w h)
      | _, _, _ => none
    | _, _, _ => none
  | some (.str ("pause")) => some .pause
  | some (.str ("resume")) => some .resume
  | some (.str ("stop")) =>
    (readOptStr j ("reason")).map fun r => .stop r
  | some (.str ("confirm")) =>
    match (j.getField ("approved")).bind Json.asBool,
        readOptStr j ("message") with
    | some a, some m => some (.confirm a m)
    | _, _ => none
  | some (.str ("answer")) =>
    match (j.getField ("text")).bind Json.asStr,
        readOptStr j ("question_id") with
    | some t, some q => some (.answer t q)
    | _, _ => none
  | _ => none

/-- Read back a driver state from its wire string. -/
def stateOfString (s : String) : Option DriverState :=
  if s = "idle" then some .idle
  else if s = "running" then some .running
  else if s = "paused" then some .paused
  else if s = "waiting_confirmation" then some .waiting_confirmation
  else if s = "waiting_answer" then some .waiting_answer
  else if s = "finished" then some .finished
  else if s = "stopped" then some .stopped
  else if s = "error" then some .error
  else none

/-- Read back an action payload (`DriverAction`): a required `type` tag and
optional coordinates. -/
def actionOfJson (j : Json) : Option DriverAction :=
  match (j.getField ("type")).bind Json.asStr with
  | some t =>
    some ⟨t, (j.getField ("x")).bind Json.asInt, (j.getField ("y")).bind Json.asInt⟩
  | none => none

/-- Modelled from the spec (section 4.1), not from the source: the decoder
the spec describes, which "taxonomically classifies [the line] by a required
discriminator field", ignores fields absent for the given variant, and fails
with a `ProtocolError` when a field required for the variant is missing.
Required fields are those of the matching `protocol.ts` interface.  This
definition exists only to be compared with the source's `parseEvent`. -/
def decodeEventSpec (j : Json) : Except Unit DriverEvent :=
  match (j.getField ("event")).bind Json.asStr,
      (j.getField ("step")).bind Json.asNat with
  | some ev, some step =>
    if ev = "ready" then
      match (j.getField ("version")).bind Json.asStr,
          (j.getField ("protocol")).bind Json.asStr with
      | some v, some p => .ok (.ready step v p)
      | _, _ => .error ()
    else if ev = "state_change" then
      match ((j.getField ("state")).bind Json.asStr).bind stateOfString with
      | some s => .ok (.state_change step s)
      | none => .error ()
    else if ev = "thinking" then
      match (j.getField ("text")).bind Json.asStr with
      | some t => .ok (.thinking step t)
      | none => .error ()
    else if ev = "action" then
      match (j.getField ("action")).bind actionOfJson with
      | some a => .ok (.action step a)
      | none => .error ()
    else if ev = "confirm" then
      match (j.getField ("action")).bind actionOfJson,
          (j.getField ("reason")).bind Json.asStr with
      | some a, some r => .ok (.confirm step a r)
      | _, _ => .error ()
    else if ev = "ask_question" then
      match (j.getField ("question")).bind Json.asStr,
          (j.getField ("question_id")).bind Json.asStr with
      | some q, some qid => .ok (.ask_question step q qid)
      | _, _ => .error ()
    else if ev = "finished" then
      match (j.getField ("reason")).bind Json.asStr,
          (j.getField ("summary")).bind Json.asStr,
          (j.getField ("success")).bind Json.asBool with
      | some r, some su, some sc => .ok (.finished step r su sc)
      | _, _, _ => .error ()
    else if ev = "error" then
      match (j.getField ("message")).bind Json.asStr,
          (j.getField ("code")).bind Json.asStr,
          (j.getField ("recoverable")).bind Json.asBool with
      | some m, some c, some rec => .ok (.error step m c rec)
      | _, _, _ => .error ()
    else if ev = "screenshot_captured" then
      match (j.getField ("width")).bind Json.asNat,
          (j.getField ("height")).bind Json.asNat with
      | some w, some h => .ok (.screenshot_captured step w h)
      | _, _ => .error ()
    else if ev = "session_created" then
      match (j.getField ("session_id")).bind Json.asStr,
          (j.getField ("agent_url")).bind Json.asStr,
          readOptStr j ("environment_url"), readOptStr j ("vnc_url") with
      | some sid, some au, some eu, some vu =>
        .ok (.session_created step sid au eu vu)
      | _, _, _, _ => .error ()
    else .error ()
  | _, _ => .error ()

/-!
## Derived notions used to state the claims
-/

/-- Whether an event is terminal for the session: a `finished` event or an
`error` event with `recoverable = false`. -/
def isTerminalEvent : DriverEvent → Bool
  | .finished _ _ _ _ => true
  | .error _ _ _ recoverable => !recoverable
  | _ => false

/-- Whether a driver state is terminal. -/
def isTerminalState : DriverState → Bool
  | .finished => true
  | .stopped => true
  | .error => true
  | _ => false

/-- The effect of one event on `currentState`, read off the transition
table: `state_change` installs its payload, `confirm` / `ask_question`
install the waiting sub-states, every other event leaves the state alone. -/
def stateStep (s : DriverState) (e : DriverEvent) : DriverState :=
  match e with
  | .state_change _ s2 => s2
  | .confirm _ _ _ => .waiting_confirmation
  | .ask_question _ _ _ => .waiting_answer
  | _ => s

/-- Accumulator step for `lastDetermined`: remember the state dictated by
the most recent state-determining event seen so far. -/
def detStep (acc : Option DriverState) (e : DriverEvent) : Option DriverState :=
  match e with
  | .state_change _ s => some s
  | .confirm _ _ _ => some .waiting_confirmation
  | .ask_question _ _ _ => some .waiting_answer
  | _ => acc

/-- The state named by the claim: the `state` of the most recent
`state_change`, or the implied waiting sub-state when a `confirm` /
`ask_question` is more recent; `none` when the sequence contains no
state-determining event. -/
def lastDetermined (es : List DriverEvent) : Option DriverState :=
  es.foldl detStep none

/-- Wrap a list of events (each with the listener outcomes observed while
handling it) as reader-loop input. -/
def toLines (tr : List (DriverEvent × List LRes × List QRes)) : List LineIn :=
  tr.map fun p => ⟨p.2.1, p.2.2, .event p.1⟩

/-- The first boolean resolved by the confirm listeners, in registration
order. -/
def firstBool : List LRes → Option Bool
  | [] => none
  | .bool b :: _ => some b
  | _ :: rest => firstBool rest

/-- A driver on which `start()` has been called (the state produced by the
executor of the promise returned by `start`), with a fixed generated session
id: process and readline alive, promise callbacks installed, `once('ready')`
armed. -/
def startedDriver : AgentDriver :=
  { freshDriver with
    sessionId := "sid0"
    process := true
    readline := true
    resolveStart := true
    rejectStart := true
    readyArmed := true
    goal := "open the calculator" }

/-- A driver that was started and has since terminated (its `cleanup` ran),
releasing the process handle. -/
def terminatedDriver : AgentDriver := cleanup startedDriver

/-- All nullable resources of the driver are null: process handle, readline
interface, the two start-promise callbacks, and the two pending interactive
continuations. -/
def isCleaned (d : AgentDriver) : Prop :=
  d.process = false ∧ d.readline = false ∧ d.resolveStart = false ∧
  d.rejectStart = false ∧ d.pendingConfirm = false ∧ d.pendingAnswer = false

/-- Concrete event trace for the claim C3 witness. -/
def c3Trace : List (DriverEvent × List LRes × List QRes) :=
  [(.ready 0 ("1.0.0") ("1"), [], []),
   (.state_change 1 .running, [], []),
   (.ask_question 2 ("which file") ("q1"), [], []),
   (.state_change 3 .running, [], []),
   (.thinking 4 ("hm"), [], [])]

/-- The line sequence of the finished-scenario claim: `ready`,
`state_change(running)`, `thinking`, `finished(success, done, ok)`. -/
def c4Trace : List LineIn :=
  [⟨[], [], .event (.ready 0 ("1.0.0") ("1"))⟩,
   ⟨[], [], .event (.state_change 1 .running)⟩,
   ⟨[], [], .event (.thinking 2 ("..."))⟩,
   ⟨[], [], .event (.finished 3 ("done") ("ok") true)⟩]

/-- A JSON document whose `event` discriminator names the `finished`
variant but which lacks the `success`, `reason` and `summary` fields that
variant requires. -/
def jMissingSuccess : Json := .obj [("event", .str ("finished")), ("step", .num 1)]

/-!
## Helper lemmas
-/

/-- `sendCommand` never changes the state field. -/
lemma sendCommand_state (d : AgentDriver) (c : DriverCommand) :
    (sendCommand d c).state = d.state := by
  unfold sendCommand; split <;> rfl

/-- The confirm-listener loop never changes the state field. -/
lemma rcl_state (ls : List LRes) : ∀ (d : AgentDriver) (handled : Bool),
    (runConfirmListeners d ls handled).state = d.state := by
  induction ls with
  | nil => intro d handled; rfl
  | cons r rest ih =>
    intro d handled
    cases r with
    | threw => exact ih d handled
    | nonBool => exact ih d handled
    | bool b =>
      cases handled with
      | true => simpa only [runConfirmListeners, if_true] using ih d true
      | false =>
        by_cases hc : d.process = false ∨ d.state ≠ DriverState.waiting_confirmation
        · simp only [runConfirmListeners, respondConfirm, if_pos hc, Bool.false_eq_true,
            if_false]
          exact ih d false
        · simp only [runConfirmListeners, respondConfirm, if_neg hc, Bool.false_eq_true,
            if_false]
          exact (ih _ true).trans (sendCommand_state d _)

/-- The question-listener loop never changes the state field. -/
lemma rql_state (qs : List QRes) : ∀ (d : AgentDriver) (qid : String) (handled : Bool),
    (runQuestionListeners d qs qid handled).state = d.state := by
  induction qs with
  | nil => intro d qid handled; rfl
  | cons r rest ih =>
    intro d qid handled
    cases r with
    | threw => exact ih d qid handled
    | nonStr => exact ih d qid handled
    | str s =>
      cases handled with
      | true => simpa only [runQuestionListeners, if_true] using ih d qid true
      | false =>
        by_cases hc : d.process = false ∨ d.state ≠ DriverState.waiting_answer
        · simp only [runQuestionListeners, respondAnswer, if_pos hc, Bool.false_eq_true,
            if_false]
          exact ih d qid false
        · simp only [runQuestionListeners, respondAnswer, if_neg hc, Bool.false_eq_true,
            if_false]
          exact (ih _ qid true).trans (sendCommand_state d _)

/-- Handling one non-terminal event moves the state exactly as the
transition-table step `stateStep` prescribes. -/
lemma handleLine_state (cls : List LRes) (qls : List QRes) (d : AgentDriver)
    (e : DriverEvent) (he : isTerminalEvent e = false) :
    (handleLine cls qls d (.event e)).state = stateStep d.state e := by
  cases e with
  | ready st v pr =>
    simp only [handleLine]
    split
    · exact sendCommand_state _ _
    · rfl
  | state_change st s => rfl
  | thinking st t => rfl
  | action st a => rfl
  | confirm st a r => exact rcl_state cls _ false
  | ask_question st q qid => exact rql_state qls _ qid false
  | screenshot_captured st w h => rfl
  | session_created st sid au eu vu => rfl
  | finished st r su sc => simp [isTerminalEvent] at he
  | error st m c rec =>
    simp only [isTerminalEvent, Bool.not_eq_false'] at he
    subst he
    rfl

/-- Running the reader loop over a sequence of non-terminal events folds
`stateStep` over the sequence. -/
lemma run_state (tr : List (DriverEvent × List LRes × List QRes)) :
    ∀ d : AgentDriver, (∀ p ∈ tr, isTerminalEvent p.1 = false) →
      (run d (toLines tr)).state = (tr.map Prod.fst).foldl stateStep d.state := by
  induction tr with
  | nil => intro d _; rfl
  | cons p rest ih =>
    intro d h
    have h1 : isTerminalEvent p.1 = false := h p (List.mem_cons_self p rest)
    have h2 : ∀ q ∈ rest, isTerminalEvent q.1 = false :=
      fun q hq => h q (List.mem_cons_of_mem p hq)
    calc (run d (toLines (p :: rest))).state
        = (run (handleLine p.2.1 p.2.2 d (.event p.1)) (toLines rest)).state := rfl
      _ = (rest.map Prod.fst).foldl stateStep
            (handleLine p.2.1 p.2.2 d (.event p.1)).state :=
          ih (handleLine p.2.1 p.2.2 d (.event p.1)) h2
      _ = (rest.map Prod.fst).foldl stateStep (stateStep d.state p.1) := by
          rw [handleLine_state _ _ _ _ h1]
      _ = ((p :: rest).map Prod.fst).foldl stateStep d.state := rfl

/-- Folding the transition-table step coincides with looking up the most
recent state-determining event. -/
lemma foldl_stateStep_det (es : List DriverEvent) :
    ∀ (acc : Option DriverState) (init : DriverState),
      es.foldl stateStep (acc.getD init) = (es.foldl detStep acc).getD init := by
  induction es with
  | nil => intro acc init; rfl
  | cons e rest ih =>
    intro acc init
    have hstep : stateStep (acc.getD init) e = (detStep acc e).getD init := by
      cases e <;> rfl
    calc (e :: rest).foldl stateStep (acc.getD init)
        = rest.foldl stateStep (stateStep (acc.getD init) e) := rfl
      _ = rest.foldl stateStep ((detStep acc e).getD init) := by rw [hstep]
      _ = (rest.foldl detStep (detStep acc e)).getD init := ih (detStep acc e) init
      _ = ((e :: rest).foldl detStep acc).getD init := rfl

/-- Once the handled flag is set, the confirm-listener loop does nothing. -/
lemma rcl_handled (ls : List LRes) : ∀ d : AgentDriver,
    runConfirmListeners d ls true = d := by
  induction ls with
  | nil => intro d; rfl
  | cons r rest ih =>
    intro d
    cases r with
    | threw => exact ih d
    | nonBool => exact ih d
    | bool b => simpa only [runConfirmListeners, if_true] using ih d

/-- With a live process and the state just set to `waiting_confirmation`,
the confirm-listener loop writes exactly one `confirm` response command,
carrying the first boolean resolved in registration order (and nothing when
no listener resolves a boolean). -/
lemma rcl_writes (ls : List LRes) : ∀ d : AgentDriver, d.process = true →
    d.state = DriverState.waiting_confirmation →
    (runConfirmListeners d ls false).writes =
      d.writes ++ (match firstBool ls with
        | some b => [DriverCommand.confirm b none]
        | none => []) := by
  induction ls with
  | nil => intro d _ _; simp [runConfirmListeners, firstBool]
  | cons r rest ih =>
    intro d hp hs
    cases r with
    | threw => simpa only [runConfirmListeners, firstBool] using ih d hp hs
    | nonBool => simpa only [runConfirmListeners, firstBool] using ih d hp hs
    | bool b =>
      have hc : ¬(d.process = false ∨ d.state ≠ DriverState.waiting_confirmation) := by
        simp [hp, hs]
      simp only [runConfirmListeners, respondConfirm, if_neg hc, Bool.false_eq_true,
        if_false, firstBool]
      rw [rcl_handled]
      simp [sendCommand, hp]

/-!
## Claim theorems
-/

/-- C1: the spec says that when the process exits (for example with code 1)
before any `finished` or unrecoverable `error` event, the pending `start()`
promise rejects with an error referencing the exit code.  The code cannot
do this: the `exit` handler calls `cleanup()` first, and `cleanup()` nulls
`rejectStart`, so the guarded rejection that builds
`Driver exited with code <code>` is dead code and the promise stays pending
forever.  This theorem evaluates the embedded exit handler at the failing
input: a freshly started driver whose process exits with code 1. -/
theorem unexpected_exit_never_rejects :
    startedDriver.rejectStart = true ∧
    startedDriver.promise = PromiseState.pending ∧
    (onExit startedDriver 1).rejectStart = false ∧
    (onExit startedDriver 1).promise = PromiseState.pending :=
  ⟨rfl, rfl, rfl, rfl⟩

/-- C2 counterexample: a malformed (non-blank, undecodable) line handled on
a live, started driver leaves the driver exactly as it was, and in
particular the emission log stays empty: no synthetic `error` event with
code `parse_error` is emitted, contrary to the claim (the source logs the
failure to the console and returns). -/
theorem malformed_line_emits_nothing :
    startedDriver.process = true ∧
    startedDriver.emits = [] ∧
    handleLine [] [] startedDriver (.malformed ("this is not json")) = startedDriver ∧
    (handleLine [] [] startedDriver (.malformed ("this is not json"))).emits = [] :=
  ⟨rfl, rfl, rfl, rfl⟩

/-- C2 amended: a malformed line pulled while the process is alive is
logged to the console and otherwise ignored: the driver is unchanged (no
synthetic event is emitted, the process is not killed, the state is
untouched) and subsequent lines are processed exactly as if the malformed
line had not occurred. -/
theorem malformed_line_skipped (cls : List LRes) (qls : List QRes)
    (d : AgentDriver) (raw : String) (rest : List LineIn) :
    handleLine cls qls d (.malformed raw) = d ∧
    run d (⟨cls, qls, .malformed raw⟩ :: rest) = run d rest :=
  ⟨rfl, rfl⟩

/-- C3: over any sequence of valid events containing no `finished` event
and no unrecoverable `error` event, the final `currentState` is the state
carried by the most recent `state_change` event, or `waiting_confirmation`
/ `waiting_answer` when a `confirm` / `ask_question` event is more recent
than the last `state_change` (formalized by `lastDetermined`). -/
theorem currentState_tracks_events (d : AgentDriver)
    (tr : List (DriverEvent × List LRes × List QRes)) (s : DriverState)
    (hok : ∀ p ∈ tr, isTerminalEvent p.1 = false)
    (hs : lastDetermined (tr.map Prod.fst) = some s) :
    currentState (run d (toLines tr)) = s := by
  have h1 := run_state tr d hok
  have h2 : (tr.map Prod.fst).foldl stateStep d.state =
      ((tr.map Prod.fst).foldl detStep none).getD d.state :=
    foldl_stateStep_det (tr.map Prod.fst) none d.state
  unfold lastDetermined at hs
  show (run d (toLines tr)).state = s
  rw [h1, h2, hs]
  rfl

/-- C3 witness: the theorem applied to a concrete five-event trace ending
with `state_change(running)` after an interposed `ask_question`. -/
theorem currentState_tracks_events_witness :
    (∀ p ∈ c3Trace, isTerminalEvent p.1 = false) ∧
    lastDetermined (c3Trace.map Prod.fst) = some DriverState.running ∧
    currentState (run startedDriver (toLines c3Trace)) = DriverState.running :=
  ⟨by decide, by decide,
    currentState_tracks_events startedDriver c3Trace DriverState.running
      (by decide) (by decide)⟩

/-- C4: feeding the lines `ready(0)`, `state_change(1, running)`,
`thinking(2, ...)`, `finished(3, done, ok, success)` to a started driver
resolves the `start()` promise with
`{success: true, reason: done, summary: ok, step: 3}` and leaves
`currentState` equal to `finished`. -/
theorem finished_scenario_resolves_start :
    (run startedDriver c4Trace).promise =
      PromiseState.resolved ⟨true, ("done"), ("ok"), 3⟩ ∧
    currentState (run startedDriver c4Trace) = DriverState.finished :=
  ⟨rfl, rfl⟩

/-- C5: when a `confirm` event is handled on a driver with a live process
and some registered listener resolves a boolean, exactly one `confirm`
response command is written, carrying the boolean of the first listener (in
registration order) that resolved one; booleans resolved by later listeners
are ignored without error. -/
theorem confirm_auto_response_written_once (d : AgentDriver)
    (hp : d.process = true) (cls : List LRes) (b : Bool)
    (hb : firstBool cls = some b) (st : Nat) (a : DriverAction)
    (reason : String) :
    (handleLine cls [] d (.event (.confirm st a reason))).writes =
      d.writes ++ [DriverCommand.confirm b none] := by
  have key := rcl_writes cls ({ d with step := st, emits := d.emits ++ [Emit.rawEvent (DriverEvent.confirm st a reason)], state := DriverState.waiting_confirmation }) hp rfl
  rw [hb] at key
  exact key

/-- C5 witness: two listeners resolve booleans (`true` then `false`) after
one non-boolean resolution; exactly one `confirm` response with
`approved = true` is written. -/
theorem confirm_auto_response_witness :
    startedDriver.process = true ∧
    firstBool [LRes.nonBool, LRes.bool true, LRes.bool false] = some true ∧
    (handleLine [LRes.nonBool, LRes.bool true, LRes.bool false] [] startedDriver
        (.event (.confirm 4 ⟨("click"), some 1, some 2⟩ ("destructive action")))).writes =
      startedDriver.writes ++ [DriverCommand.confirm true none] :=
  ⟨rfl, rfl,
    confirm_auto_response_written_once startedDriver rfl
      [LRes.nonBool, LRes.bool true, LRes.bool false] true rfl 4
      ⟨("click"), some 1, some 2⟩ ("destructive action")⟩

/-- C6 counterexample: a JSON document announcing the `finished` variant
but missing that variant's required `success`, `reason` and `summary`
fields.  The claim requires decoding to fail with a `ProtocolError`; the
source's `parseEvent` performs no such check and succeeds, returning the
document unchanged (the spec-modelled validating decoder confirms the
fields are indeed required for the identified variant). -/
theorem parseEvent_missing_required_field_accepted :
    parseEvent (.doc jMissingSuccess) = .ok jMissingSuccess ∧
    decodeEventSpec jMissingSuccess = .error () :=
  ⟨rfl, rfl⟩

/-- C6 amended: decoding classifies nothing and validates nothing: it fails
exactly on lines that are not valid JSON, and accepts every valid JSON
document unchanged, so fields absent from a document are ignored whether or
not the identified variant requires them. -/
theorem parseEvent_validates_nothing (j : Json) (raw : String) :
    parseEvent (.doc j) = .ok j ∧ parseEvent (.malformed raw) = .error () :=
  ⟨rfl, rfl⟩

/-- C7: encoding a well-formed command is total (a total function by
construction) and is the structural inverse of decoding: the encoded line
always decodes (the source decoder accepts it unchanged), and reading the
fields of the decoded document back yields a command structurally equal to
the original. -/
theorem serialize_parse_roundtrip (c : DriverCommand) :
    parseEvent (.doc (serializeCommand c)) = .ok (serializeCommand c) ∧
    commandOfJson (serializeCommand c) = some c := by
  refine ⟨rfl, ?_⟩
  cases c with
  | start sid goal shot w h p model mode agent api env =>
    cases p <;> cases mode <;> cases agent <;> cases api <;> cases env <;> rfl
  | screenshot data w h => rfl
  | pause => rfl
  | resume => rfl
  | stop r => cases r <;> rfl
  | confirm a m => cases m <;> rfl
  | answer t q => cases q <;> rfl

/-- C8: an `error` event with `recoverable = true` processed in a
non-terminal state only notifies listeners: `currentState`, the `start()`
promise and its callbacks, the process handle and readline interface, the
pending interactive continuations and the command log are all unchanged,
and the two listener notifications (`event` and `error`) are appended to
the emission log. -/
theorem recoverable_error_only_notifies (d : AgentDriver)
    (_h : isTerminalState d.state = false) (st : Nat) (message code : String) :
    (handleLine [] [] d (.event (.error st message code true))).state = d.state ∧
    (handleLine [] [] d (.event (.error st message code true))).promise = d.promise ∧
    (handleLine [] [] d (.event (.error st message code true))).resolveStart = d.resolveStart ∧
    (handleLine [] [] d (.event (.error st message code true))).rejectStart = d.rejectStart ∧
    (handleLine [] [] d (.event (.error st message code true))).process = d.process ∧
    (handleLine [] [] d (.event (.error st message code true))).readline = d.readline ∧
    (handleLine [] [] d (.event (.error st message code true))).pendingConfirm = d.pendingConfirm ∧
    (handleLine [] [] d (.event (.error st message code true))).pendingAnswer = d.pendingAnswer ∧
    (handleLine [] [] d (.event (.error st message code true))).writes = d.writes ∧
    (handleLine [] [] d (.event (.error st message code true))).emits =
      d.emits ++ [Emit.rawEvent (DriverEvent.error st message code true),
        Emit.error (DriverEvent.error st message code true)] := by
  refine ⟨rfl, rfl, rfl, rfl, rfl, rfl, rfl, rfl, rfl, ?_⟩
  show (d.emits ++ [Emit.rawEvent (DriverEvent.error st message code true)]) ++
      [Emit.error (DriverEvent.error st message code true)] = _
  simp

/-- C8 witness: the theorem applied to a started (non-terminal) driver and
a concrete recoverable error event. -/
theorem recoverable_error_witness :
    isTerminalState startedDriver.state = false ∧
    (handleLine [] [] startedDriver
        (.event (.error 2 ("boom") ("x") true))).state = startedDriver.state ∧
    (handleLine [] [] startedDriver
        (.event (.error 2 ("boom") ("x") true))).promise = startedDriver.promise :=
  ⟨rfl,
    (recoverable_error_only_notifies startedDriver rfl 2 ("boom") ("x")).1,
    (recoverable_error_only_notifies startedDriver rfl 2 ("boom") ("x")).2.1⟩

/-- C9 counterexample: `terminatedDriver` was started (its process was
alive) and has since terminated; the claim says `sendScreenshot` is then a
no-op that does not throw, but the source checks only `this.process` and
throws `Driver is not running`. -/
theorem sendScreenshot_throws_after_termination :
    startedDriver.process = true ∧
    terminatedDriver = cleanup startedDriver ∧
    terminatedDriver.process = false ∧
    sendScreenshot terminatedDriver ("aGVsbG8=") none none =
      .error ("Driver is not running") :=
  ⟨rfl, rfl, rfl, rfl⟩

/-- C9 amended: `sendScreenshot` throws `Driver is not running` whenever no
process is alive — on a driver never started and equally on one that was
started and has since terminated; there is no no-op case. -/
theorem sendScreenshot_throws_without_process (d : AgentDriver) (data : String)
    (w h : Option Int) (hp : d.process = false) :
    sendScreenshot d data w h = .error ("Driver is not running") := by
  simp [sendScreenshot, hp]

/-- C9 amended witness: the never-started fresh driver. -/
theorem sendScreenshot_throws_witness :
    freshDriver.process = false ∧
    sendScreenshot freshDriver ("aGVsbG8=") none none =
      .error ("Driver is not running") :=
  ⟨rfl, sendScreenshot_throws_without_process freshDriver ("aGVsbG8=") none none rfl⟩

/-- C10: all terminal paths end in `cleanup` having left the process
handle, readline interface, start-promise callbacks and pending confirm /
answer continuations null (`isCleaned`): direct `cleanup`, a `finished`
event, an unrecoverable `error` event, `stop()` on a live process, process
exit, and spawn failure.  Consequently, on any cleaned driver, `pause`,
`resume` and `stop` are no-ops, `respondConfirm` / `respondAnswer` throw,
and a subsequent `start()` does not throw `Driver is already running`. -/
theorem cleanup_clears_everything (d : AgentDriver) (st : Nat)
    (r su msg co : String) (reason : Option String) (code : Int) :
    isCleaned (cleanup d) ∧
    isCleaned (handleLine [] [] d (.event (.finished st r su true))) ∧
    isCleaned (handleLine [] [] d (.event (.error st msg co false))) ∧
    (d.process = true → isCleaned (stopDriver d reason)) ∧
    isCleaned (onExit d code) ∧
    isCleaned (onSpawnError d msg) ∧
    (∀ c : AgentDriver, isCleaned c →
      pause c = c ∧ resume c = c ∧ stopDriver c reason = c ∧
      respondConfirm c true none = .error ("Not waiting for confirmation") ∧
      respondAnswer c ("a") none = .error ("Not waiting for answer") ∧
      ∃ d2, startDriver c ("s2") ("g2") ("") 0 0 none = .ok d2) := by
  refine ⟨⟨rfl, rfl, rfl, rfl, rfl, rfl⟩, ⟨rfl, rfl, rfl, rfl, rfl, rfl⟩,
    ⟨rfl, rfl, rfl, rfl, rfl, rfl⟩, ?_, ⟨rfl, rfl, rfl, rfl, rfl, rfl⟩,
    ⟨rfl, rfl, rfl, rfl, rfl, rfl⟩, ?_⟩
  · intro hp
    simp only [stopDriver, hp, if_true]
    exact ⟨rfl, rfl, rfl, rfl, rfl, rfl⟩
  · intro c hc
    obtain ⟨h1, h2, h3, h4, h5, h6⟩ := hc
    refine ⟨?_, ?_, ?_, ?_, ?_, ?_⟩
    · simp [pause, h1]
    · simp [resume, h1]
    · simp [stopDriver, h1]
    · simp [respondConfirm, h1]
    · simp [respondAnswer, h1]
    · simp only [startDriver, h1, Bool.false_eq_true, if_false]
      exact ⟨_, rfl⟩

/-- C10 witness: the consequences evaluated on concrete drivers — a cleaned
started driver, and `stop()` on a live one. -/
theorem cleanup_clears_everything_witness :
    isCleaned (cleanup startedDriver) ∧
    isCleaned (stopDriver startedDriver none) ∧
    pause (cleanup startedDriver) = cleanup startedDriver ∧
    (∃ d2, startDriver (cleanup startedDriver) ("s2") ("g2") ("") 0 0 none = .ok d2) := by
  have h := cleanup_clears_everything startedDriver 0 ("r") ("s") ("m") ("c") none 0
  refine ⟨h.1, h.2.2.2.1 rfl, ?_, ?_⟩
  · exact ((h.2.2.2.2.2.2) (cleanup startedDriver) h.1).1
  · exact ((h.2.2.2.2.2.2) (cleanup startedDriver) h.1).2.2.2.2.2
